import Mathlib

set_option maxRecDepth 4000
set_option maxHeartbeats 2000000

/-!
Verification development for the foreign struct-layout mirror described by
the repository's specification, instantiated at the one concrete structure
the repository declares: `struct mntinfo_kstat_cgo` from `gen/mntinfo_cgo.h`
(the cgo-friendly restatement of the kernel's `mntinfo_kstat`, with the
anonymous timer struct pulled out of line as `struct mnti_timer`).

The header is the only code in the repository; the catalog / builder /
emitter / validator operations exist only in the specification, so they are
modelled here from the spec's contracts and settled against that model.
-/

/-- A foreign scalar type: name plus its (size, alignment) pair on the
    target ABI, as registered in the Primitive Type Catalog. -/
structure ScalarType where
  name : String
  size : Nat
  align : Nat
deriving DecidableEq

/-- A scalar-only field, as used inside a named sub-layout (the out-of-lined
    form of an anonymous embedded struct). `count` is the array length,
    1 for a plain scalar. -/
structure SField where
  name : String
  ty : ScalarType
  count : Nat
deriving DecidableEq

/-- A named sub-layout: the out-of-line, named form of what was originally an
    anonymous embedded struct (e.g. `struct mnti_timer`). Its fields are
    scalars, matching the one level of nesting the spec's data model allows. -/
structure SubLayout where
  name : String
  fields : List SField
deriving DecidableEq

/-- The type of a field of an outer layout: either a catalog scalar type or a
    reference to a named sub-layout. -/
inductive FType where
  | scalar (t : ScalarType)
  | sub (s : SubLayout)
deriving DecidableEq

/-- FieldDescriptor: field name, its type and the array length
    (1 for a scalar field). The declaration-order index is the position in
    the owning layout's field list. -/
structure FieldDescriptor where
  name : String
  ftype : FType
  count : Nat
deriving DecidableEq

/-- LayoutDescriptor: a struct name together with its ordered field list. -/
structure LayoutDescriptor where
  name : String
  fields : List FieldDescriptor
deriving DecidableEq

/-- Error taxonomy of the mirror component, from the spec's section 7. -/
inductive MirrorError where
  | unknownType (tyName : String)
  | unsupportedConstruct (fieldName : String)
  | noCompatibleType (fieldName : String)
  | sizeMismatch (expected got : Nat)
  | offsetMismatch (expected got : List Nat)
deriving DecidableEq

/-- Round `n` up to the next multiple of `a` (natural-alignment padding);
    alignment 0 pads nothing. -/
def alignUp (n a : Nat) : Nat :=
  if a = 0 then n else ((n + a - 1) / a) * a

/-- Modelled from the spec: size computation for a (scalar-only) sub-layout.
    Walk the fields in order, padding the running offset to each field's
    alignment before placing it. -/
def subWalkEnd : Nat → List SField → Nat
  | off, [] => off
  | off, sf :: sfs => subWalkEnd (alignUp off sf.ty.align + sf.ty.size * sf.count) sfs

/-- Maximum alignment among a sub-layout's fields (at least 1). -/
def subMaxAlign (s : SubLayout) : Nat :=
  s.fields.foldl (fun m sf => max m sf.ty.align) 1

/-- Modelled from the spec: total size of a sub-layout, the walked end offset
    rounded up to the maximum member alignment. -/
def subLayoutSize (s : SubLayout) : Nat :=
  alignUp (subWalkEnd 0 s.fields) (subMaxAlign s)

/-- Element size of a field type. -/
def ftypeSize : FType → Nat
  | .scalar t => t.size
  | .sub s => subLayoutSize s

/-- Alignment requirement of a field type. -/
def ftypeAlign : FType → Nat
  | .scalar t => t.align
  | .sub s => subMaxAlign s

/-- Bytes occupied by a field: element size times array length. -/
def fieldBytes (f : FieldDescriptor) : Nat :=
  ftypeSize f.ftype * f.count

/-- Alignment requirement of a field (that of its element type). -/
def fieldAlign (f : FieldDescriptor) : Nat :=
  ftypeAlign f.ftype

/-- Modelled from the spec: walk the fields in declaration order, padding the
    running offset up to each field's alignment boundary before placing it;
    returns the offset just past the last field. -/
def walkEnd : Nat → List FieldDescriptor → Nat
  | off, [] => off
  | off, f :: fs => walkEnd (alignUp off (fieldAlign f) + fieldBytes f) fs

/-- Maximum alignment among a layout's fields (at least 1). -/
def maxAlignOf (l : LayoutDescriptor) : Nat :=
  l.fields.foldl (fun m f => max m (fieldAlign f)) 1

/-- Modelled from the spec: the expected total size of a layout under the
    natural-alignment rule — the walked end offset rounded up to the maximum
    alignment among the fields. -/
def computeExpectedSize (l : LayoutDescriptor) : Nat :=
  alignUp (walkEnd 0 l.fields) (maxAlignOf l)

/-- Per-field offsets, starting the walk at a given offset. -/
def offsetsFrom : Nat → List FieldDescriptor → List Nat
  | _, [] => []
  | off, f :: fs =>
    alignUp off (fieldAlign f) :: offsetsFrom (alignUp off (fieldAlign f) + fieldBytes f) fs

/-- Per-field offsets of a layout under the natural-alignment rule. -/
def fieldOffsets (l : LayoutDescriptor) : List Nat :=
  offsetsFrom 0 l.fields

/-- Modelled from the spec: the Layout Validator. Compares the computed
    expected size against `referenceSize` (`SizeMismatch` on disagreement)
    and, when reference offsets are supplied, the computed per-field offsets
    against them (`OffsetMismatch` on disagreement). -/
def validate (l : LayoutDescriptor) (referenceSize : Nat)
    (referenceOffsets : Option (List Nat)) : Except MirrorError Unit :=
  if computeExpectedSize l = referenceSize then
    match referenceOffsets with
    | none => .ok ()
    | some os => if fieldOffsets l = os then .ok () else
        .error (.offsetMismatch (fieldOffsets l) os)
  else
    .error (.sizeMismatch (computeExpectedSize l) referenceSize)

/-- `NFS_CALLTYPES` from `gen/mntinfo_cgo.h`: Lookups, Reads, Writes. -/
def NFS_CALLTYPES : Nat := 3

/-- Modelled from the spec: `KNC_STRSIZE` comes from a system header that is
    not in the repository; the spec's worked example describes the
    protocol-name buffer `mik_proto` as 128 bytes. -/
def KNC_STRSIZE : Nat := 128

/-- Modelled from the spec: `SYS_NMLN` comes from `sys/utsname.h`, which is
    not in the repository; on the Solaris ABI the header targets, the
    server-name buffer `mik_curserver` is 257 bytes. -/
def SYS_NMLN : Nat := 257

/-- `char` on the targeted ABI: 1 byte, 1-byte aligned. -/
def charT : ScalarType := ⟨"char", 1, 1⟩

/-- `uint32_t` on the targeted ABI: 4 bytes, 4-byte aligned. -/
def uint32T : ScalarType := ⟨"uint32_t", 4, 4⟩

/-- `uint_t` on the targeted ABI: 4 bytes, 4-byte aligned. -/
def uintT : ScalarType := ⟨"uint_t", 4, 4⟩

/-- `int` on the targeted ABI: 4 bytes, 4-byte aligned. -/
def intT : ScalarType := ⟨"int", 4, 4⟩

/-- The Primitive Type Catalog for the targeted ABI (the scalar types the
    header uses). -/
def stdCatalog : List ScalarType := [charT, uint32T, uintT, intT]

/-- `struct mnti_timer` from `gen/mntinfo_cgo.h`: the out-of-lined, named
    form of the timer struct embedded in `mntinfo_kstat`. -/
def mntiTimer : SubLayout :=
  ⟨"mnti_timer",
   [⟨"srtt", uint32T, 1⟩,
    ⟨"deviate", uint32T, 1⟩,
    ⟨"rtxcur", uint32T, 1⟩]⟩

/-- `struct mntinfo_kstat_cgo` from `gen/mntinfo_cgo.h`, field for field in
    declaration order. -/
def mntinfoLayout : LayoutDescriptor :=
  ⟨"mntinfo_kstat_cgo",
   [⟨"mik_proto", .scalar charT, KNC_STRSIZE⟩,
    ⟨"mik_vers", .scalar uint32T, 1⟩,
    ⟨"mik_flags", .scalar uintT, 1⟩,
    ⟨"mik_secmod", .scalar uintT, 1⟩,
    ⟨"mik_curread", .scalar uint32T, 1⟩,
    ⟨"mik_curwrite", .scalar uint32T, 1⟩,
    ⟨"mik_timeo", .scalar intT, 1⟩,
    ⟨"mik_retrans", .scalar intT, 1⟩,
    ⟨"mik_acregmin", .scalar uintT, 1⟩,
    ⟨"mik_acregmax", .scalar uintT, 1⟩,
    ⟨"mik_acdirmin", .scalar uintT, 1⟩,
    ⟨"mik_acdirmax", .scalar uintT, 1⟩,
    ⟨"mik_timers", .sub mntiTimer, NFS_CALLTYPES + 1⟩,
    ⟨"mik_noresponse", .scalar uint32T, 1⟩,
    ⟨"mik_failover", .scalar uint32T, 1⟩,
    ⟨"mik_remap", .scalar uint32T, 1⟩,
    ⟨"mik_curserver", .scalar charT, SYS_NMLN⟩]⟩

/-- Concatenate the lists produced by `g` over a list, in order. -/
def catMap {α β : Type} (g : α → List β) : List α → List β
  | [] => []
  | a :: as => g a ++ catMap g as

/-- A target-language type: its rendered name and (size, alignment). -/
structure TargetType where
  name : String
  size : Nat
  align : Nat
deriving DecidableEq

/-- One field of an emitted target-language declaration. -/
structure MirrorField where
  name : String
  targetType : String
  size : Nat
  align : Nat
  count : Nat
deriving DecidableEq

/-- MirrorDeclaration: the target-language rendering of a layout. -/
structure MirrorDeclaration where
  name : String
  fields : List MirrorField
deriving DecidableEq

/-- Modelled from the spec: catalog lookup; fails with `UnknownType` when the
    foreign type name is not registered. -/
def lookup (cat : List ScalarType) (n : String) : Except MirrorError ScalarType :=
  match cat.find? (fun t => t.name == n) with
  | some t => .ok t
  | none => .error (.unknownType n)

/-- The foreign type name `n` is registered in the catalog. -/
def registered (cat : List ScalarType) (n : String) : Prop :=
  ∃ t ∈ cat, t.name = n

instance (cat : List ScalarType) (n : String) : Decidable (registered cat n) :=
  List.decidableBEx _ cat

/-- All foreign scalar type names a layout mentions, in order (top-level
    scalar fields and the element types of its sub-layout fields). -/
def scalarNames (l : LayoutDescriptor) : List String :=
  catMap
    (fun f =>
      match f.ftype with
      | .scalar t => [t.name]
      | .sub s => s.fields.map (fun sf => sf.ty.name))
    l.fields

/-- First foreign type name of the layout that is not in the catalog. -/
def firstUnknown (cat : List ScalarType) (l : LayoutDescriptor) : Option String :=
  (scalarNames l).find? (fun n => !(cat.any (fun t => t.name == n)))

/-- Modelled from the spec: emit one field — pick the first target type of
    identical size and equal-or-stricter alignment (`NoCompatibleType` when
    none exists); a sub-layout field is emitted as a reference to the named
    sub struct. -/
def emitField (tgt : List TargetType) (f : FieldDescriptor) : Except MirrorError MirrorField :=
  match f.ftype with
  | .scalar t =>
    match tgt.find? (fun tt => tt.size == t.size && decide (t.align ≤ tt.align)) with
    | some tt => .ok ⟨f.name, tt.name, tt.size, tt.align, f.count⟩
    | none => .error (.noCompatibleType f.name)
  | .sub s => .ok ⟨f.name, s.name, subLayoutSize s, subMaxAlign s, f.count⟩

/-- Emit a field list in order, stopping at the first failure. -/
def emitFields (tgt : List TargetType) : List FieldDescriptor → Except MirrorError (List MirrorField)
  | [] => .ok []
  | f :: fs =>
    match emitField tgt f with
    | .error e => .error e
    | .ok m =>
      match emitFields tgt fs with
      | .error e => .error e
      | .ok ms => .ok (m :: ms)

/-- Modelled from the spec: the Mirror Emitter. First checks every foreign
    type name the layout mentions against the catalog (`UnknownType` for an
    unregistered one — never a silently guessed size), then renders the
    fields in declaration order. -/
def emit (cat : List ScalarType) (tgt : List TargetType) (l : LayoutDescriptor) :
    Except MirrorError MirrorDeclaration :=
  match firstUnknown cat l with
  | some n => .error (.unknownType n)
  | none =>
    match emitFields tgt l.fields with
    | .error e => .error e
    | .ok ms => .ok ⟨l.name, ms⟩

/-- A source-declaration field, as handed to the layout builder: either a
    scalar (field name, foreign type name, array length) or a nested
    structure (field name, optional type name, scalar member list
    as (name, type name, count) triples, array length). -/
inductive SrcField where
  | scalar (name tyName : String) (count : Nat)
  | nested (fieldName : String) (typeName : Option String)
      (members : List (String × String × Nat)) (count : Nat)
deriving DecidableEq

/-- A canonical foreign struct declaration: name and source fields. -/
structure SourceDecl where
  name : String
  fields : List SrcField
deriving DecidableEq

/-- The declared field name of a source field. -/
def srcFieldName : SrcField → String
  | .scalar n _ _ => n
  | .nested n _ _ _ => n

/-- Effective name of a nested structure: its own type name when derivable,
    otherwise the caller-supplied rename keyed by the field name. -/
def effectiveName (renames : List (String × String)) (fn : String)
    (tn : Option String) : Option String :=
  match tn with
  | some n => some n
  | none => (renames.find? (fun p => p.1 == fn)).map (fun p => p.2)

/-- A nested source field with no derivable name and no caller-supplied
    rename (the `UnsupportedConstruct` condition). -/
def isUnnamed (renames : List (String × String)) : SrcField → Bool
  | .scalar _ _ _ => false
  | .nested fn tn _ _ => (effectiveName renames fn tn).isNone

/-- Resolve the scalar members of a nested structure against the catalog. -/
def resolveAll (cat : List ScalarType) :
    List (String × String × Nat) → Except MirrorError (List SField)
  | [] => .ok []
  | (nm, ty, c) :: rest =>
    match cat.find? (fun t => t.name == ty) with
    | none => .error (.unknownType ty)
    | some t =>
      match resolveAll cat rest with
      | .error e => .error e
      | .ok sfs => .ok (⟨nm, t, c⟩ :: sfs)

/-- Modelled from the spec: build one FieldDescriptor from a source field; a
    named (or renamed) nested structure becomes a named sub-layout referenced
    by one field of the outer layout. -/
def buildField (cat : List ScalarType) (renames : List (String × String)) :
    SrcField → Except MirrorError FieldDescriptor
  | .scalar nm ty c =>
    match cat.find? (fun t => t.name == ty) with
    | some t => .ok ⟨nm, .scalar t, c⟩
    | none => .error (.unknownType ty)
  | .nested fn tn members c =>
    match effectiveName renames fn tn with
    | none => .error (.unsupportedConstruct fn)
    | some nm =>
      match resolveAll cat members with
      | .error e => .error e
      | .ok sfs => .ok ⟨fn, .sub ⟨nm, sfs⟩, c⟩

/-- Build a field list in order, stopping at the first failure. -/
def buildFields (cat : List ScalarType) (renames : List (String × String)) :
    List SrcField → Except MirrorError (List FieldDescriptor)
  | [] => .ok []
  | f :: fs =>
    match buildField cat renames f with
    | .error e => .error e
    | .ok fd =>
      match buildFields cat renames fs with
      | .error e => .error e
      | .ok fds => .ok (fd :: fds)

/-- Modelled from the spec: `buildLayout`. Fails with `UnsupportedConstruct`
    when the source embeds a nested structure with no derivable name and no
    caller-supplied rename; otherwise builds the LayoutDescriptor. -/
def buildLayout (cat : List ScalarType) (renames : List (String × String))
    (d : SourceDecl) : Except MirrorError LayoutDescriptor :=
  match d.fields.find? (isUnnamed renames) with
  | some f => .error (.unsupportedConstruct (srcFieldName f))
  | none =>
    match buildFields cat renames d.fields with
    | .error e => .error e
    | .ok fds => .ok ⟨d.name, fds⟩

/-- Replace field `i`'s declared byte size by `fieldBytes` shifted by `d`
    (its alignment requirement kept), modelling the spec's "perturb one
    field's declared size by one byte". -/
def perturbAt : List FieldDescriptor → Nat → Int → List FieldDescriptor
  | [], _, _ => []
  | f :: fs, 0, d =>
    ⟨f.name, .scalar ⟨"perturbed", ((fieldBytes f : Int) + d).toNat, fieldAlign f⟩, 1⟩ :: fs
  | f :: fs, i + 1, d => f :: perturbAt fs i d

/-- Perturb the declared size of field `i` of a layout by `d` bytes. -/
def perturbField (l : LayoutDescriptor) (i : Nat) (d : Int) : LayoutDescriptor :=
  ⟨l.name, perturbAt l.fields i d⟩

/-- Whether a validation outcome is a `SizeMismatch` failure. -/
def isSizeMismatch : Except MirrorError Unit → Bool
  | .error (.sizeMismatch _ _) => true
  | _ => false

/-- Inline a sub-layout field back into flattened scalar fields, one run of
    the sub-layout's members per array element — the anonymous-inline form
    of the declaration. -/
def flattenField (f : FieldDescriptor) : List FieldDescriptor :=
  match f.ftype with
  | .scalar _ => [f]
  | .sub s =>
    catMap
      (fun _ => s.fields.map (fun sf => ⟨f.name ++ "_" ++ sf.name, .scalar sf.ty, sf.count⟩))
      (List.range f.count)

/-- The fully inlined (anonymous-struct) form of a layout. -/
def flattenLayout (l : LayoutDescriptor) : LayoutDescriptor :=
  ⟨l.name, catMap flattenField l.fields⟩

/-- Per-field offsets within a (scalar-only) sub-layout, walking from a given
    offset. -/
def subOffsetsFrom : Nat → List SField → List Nat
  | _, [] => []
  | off, sf :: sfs =>
    alignUp off sf.ty.align :: subOffsetsFrom (alignUp off sf.ty.align + sf.ty.size * sf.count) sfs

/-- Offsets a field of the outer layout contributes when its sub-layout is
    inlined: the field's own offset for a scalar, and each array element's
    member offsets for a sub-layout field. -/
def expandAt (off : Nat) (f : FieldDescriptor) : List Nat :=
  match f.ftype with
  | .scalar _ => [off]
  | .sub s =>
    catMap
      (fun k => (subOffsetsFrom 0 s.fields).map (fun p => off + k * subLayoutSize s + p))
      (List.range f.count)

/-- All scalar offsets of a layout with sub-layout fields expanded in place. -/
def expandedOffsetsFrom : Nat → List FieldDescriptor → List Nat
  | _, [] => []
  | off, f :: fs =>
    expandAt (alignUp off (fieldAlign f)) f ++
      expandedOffsetsFrom (alignUp off (fieldAlign f) + fieldBytes f) fs

/-- All scalar offsets of a layout, sub-layout fields expanded in place. -/
def expandedOffsets (l : LayoutDescriptor) : List Nat :=
  expandedOffsetsFrom 0 l.fields

/-- C1 (counterexample): the worked-example layout for
    `struct mntinfo_kstat_cgo` does not have total size 124; the
    natural-alignment walk yields 492 bytes (128-byte `mik_proto`, 44 bytes
    of counters, 48 bytes of timers, 12 more bytes of counters, 257-byte
    `mik_curserver`, rounded to alignment 4), so validating against 124
    fails with `SizeMismatch` instead of passing. -/
theorem c1_counterexample :
    computeExpectedSize mntinfoLayout = 492 ∧ (492 : Nat) ≠ 124 ∧
      validate mntinfoLayout 124 none = .error (.sizeMismatch 492 124) :=
  ⟨rfl, by decide, rfl⟩

/-- C1 (amended): the worked-example LayoutDescriptor for
    `struct mntinfo_kstat_cgo` has computed total size 492 bytes, and
    `validate` against reference size 492 passes. -/
theorem c1_amended :
    computeExpectedSize mntinfoLayout = 492 ∧
      validate mntinfoLayout 492 none = .ok () :=
  ⟨rfl, rfl⟩

/-- C2 (counterexample): the unperturbed layout validates against 492, yet
    shrinking the declared size of field 1 (`mik_vers`, 4 bytes → 3 bytes)
    leaves the computed size at 492 — the lost byte is re-inserted as
    alignment padding before `mik_flags` — so validation against the
    original reference size still passes rather than failing with
    `SizeMismatch`. -/
theorem c2_counterexample :
    validate mntinfoLayout 492 none = .ok () ∧
      validate (perturbField mntinfoLayout 1 (-1)) 492 none = .ok () :=
  ⟨rfl, rfl⟩

/-- C2 (amended): for every field of the worked-example layout, at least one
    of the two one-byte perturbations of its declared size (+1 or −1) makes
    validation against the original reference size 492 fail with
    `SizeMismatch`; the opposite direction can be absorbed by alignment
    padding. -/
theorem c2_amended (i : Nat) (h : i < mntinfoLayout.fields.length) :
    isSizeMismatch (validate (perturbField mntinfoLayout i 1) 492 none) = true ∨
      isSizeMismatch (validate (perturbField mntinfoLayout i (-1)) 492 none) = true := by
  revert h
  revert i
  decide

/-- C2 (witness): the amended statement instantiated at field 0
    (`mik_proto`). -/
theorem c2_amended_witness :
    0 < mntinfoLayout.fields.length ∧
      (isSizeMismatch (validate (perturbField mntinfoLayout 0 1) 492 none) = true ∨
        isSizeMismatch (validate (perturbField mntinfoLayout 0 (-1)) 492 none) = true) :=
  ⟨by decide, c2_amended 0 (by decide)⟩

/-- C3: the validator passes exactly when the computed expected size equals
    the supplied reference size, fails with `SizeMismatch` (carrying the
    computed size) exactly when they differ, and the computed expected size
    is the in-order natural-alignment walk — pad the running offset to each
    field's alignment before placing it — rounded up to the maximum
    alignment among the fields. -/
theorem c3_validate_size (l : LayoutDescriptor) (r : Nat) :
    (validate l r none = .ok () ↔ computeExpectedSize l = r) ∧
      (validate l r none = .error (.sizeMismatch (computeExpectedSize l) r) ↔
        computeExpectedSize l ≠ r) ∧
      computeExpectedSize l = alignUp (walkEnd 0 l.fields) (maxAlignOf l) := by
  refine ⟨?_, ?_, rfl⟩ <;> by_cases h : computeExpectedSize l = r <;> simp [validate, h]

/-- C4: out-of-lining the anonymous timer struct of `mntinfo_kstat` into the
    named `struct mnti_timer` referenced by the `mik_timers` field preserves
    the byte-for-byte layout: re-inlining the sub-layout (flattening it back
    into anonymous scalar members) gives the same total size, and the scalar
    offsets of the flattened declaration coincide with the sub-layout
    field's expanded element/member offsets; the common size is 492. -/
theorem c4_outline_equiv :
    computeExpectedSize (flattenLayout mntinfoLayout) = computeExpectedSize mntinfoLayout ∧
      fieldOffsets (flattenLayout mntinfoLayout) = expandedOffsets mntinfoLayout ∧
      computeExpectedSize mntinfoLayout = 492 :=
  ⟨rfl, rfl, rfl⟩

/-- C5: validating any layout against its own computed expected size always
    passes (self-consistency of the size computation). -/
theorem c5_self_consistent (l : LayoutDescriptor) :
    validate l (computeExpectedSize l) none = .ok () := by
  simp [validate]

/-- Target types used by the worked-example emission: 1-byte and 4-byte
    integers of the target language. -/
def stdTargets : List TargetType := [⟨"int8", 1, 1⟩, ⟨"uint32", 4, 4⟩]

/-- The expected target-language rendering of `mntinfo_kstat_cgo` over
    `stdTargets`. -/
def mntinfoMirror : MirrorDeclaration :=
  ⟨"mntinfo_kstat_cgo",
   [⟨"mik_proto", "int8", 1, 1, KNC_STRSIZE⟩,
    ⟨"mik_vers", "uint32", 4, 4, 1⟩,
    ⟨"mik_flags", "uint32", 4, 4, 1⟩,
    ⟨"mik_secmod", "uint32", 4, 4, 1⟩,
    ⟨"mik_curread", "uint32", 4, 4, 1⟩,
    ⟨"mik_curwrite", "uint32", 4, 4, 1⟩,
    ⟨"mik_timeo", "uint32", 4, 4, 1⟩,
    ⟨"mik_retrans", "uint32", 4, 4, 1⟩,
    ⟨"mik_acregmin", "uint32", 4, 4, 1⟩,
    ⟨"mik_acregmax", "uint32", 4, 4, 1⟩,
    ⟨"mik_acdirmin", "uint32", 4, 4, 1⟩,
    ⟨"mik_acdirmax", "uint32", 4, 4, 1⟩,
    ⟨"mik_timers", "mnti_timer", 12, 4, NFS_CALLTYPES + 1⟩,
    ⟨"mik_noresponse", "uint32", 4, 4, 1⟩,
    ⟨"mik_failover", "uint32", 4, 4, 1⟩,
    ⟨"mik_remap", "uint32", 4, 4, 1⟩,
    ⟨"mik_curserver", "int8", 1, 1, SYS_NMLN⟩]⟩

/-- A successfully emitted field keeps the source field's name. -/
theorem emitField_name_eq (tgt : List TargetType) (f : FieldDescriptor)
    (m : MirrorField) (h : emitField tgt f = .ok m) : m.name = f.name := by
  revert h
  unfold emitField
  split
  · split
    · intro h
      cases h
      rfl
    · intro h
      cases h
  · intro h
    cases h
    rfl

/-- A successfully emitted field list has the source field names in the same
    order. -/
theorem emitFields_names (tgt : List TargetType) :
    ∀ fs ms, emitFields tgt fs = .ok ms →
      ms.map MirrorField.name = fs.map FieldDescriptor.name := by
  intro fs
  induction fs with
  | nil =>
    intro ms h
    cases h
    rfl
  | cons f fs ih =>
    intro ms h
    revert h
    unfold emitFields
    split
    · intro h
      cases h
    · rename_i m hm
      split
      · intro h
        cases h
      · rename_i ms0 hms
        intro h
        cases h
        simp only [List.map, List.cons.injEq]
        exact ⟨emitField_name_eq tgt f m hm, ih ms0 hms⟩

/-- C6: the emitter never reorders fields — whenever `emit` succeeds, the
    emitted declaration's field-name sequence equals the input descriptor's
    field-name sequence. -/
theorem c6_emit_order (cat : List ScalarType) (tgt : List TargetType)
    (l : LayoutDescriptor) (d : MirrorDeclaration) (h : emit cat tgt l = .ok d) :
    d.fields.map MirrorField.name = l.fields.map FieldDescriptor.name := by
  revert h
  unfold emit
  split
  · intro h
    cases h
  · split
    · intro h
      cases h
    · intro h
      cases h
      rename_i ms hms
      exact emitFields_names tgt l.fields ms hms

/-- C6 (witness): emitting the worked-example layout over the standard
    targets succeeds and preserves the field order of
    `struct mntinfo_kstat_cgo`. -/
theorem c6_emit_order_witness :
    emit stdCatalog stdTargets mntinfoLayout = .ok mntinfoMirror ∧
      mntinfoMirror.fields.map MirrorField.name =
        mntinfoLayout.fields.map FieldDescriptor.name :=
  ⟨rfl, c6_emit_order stdCatalog stdTargets mntinfoLayout mntinfoMirror rfl⟩

/-- C7: catalog lookup fails with `UnknownType` exactly when the foreign
    type name is not registered, and a layout mentioning any unregistered
    foreign type makes `emit` fail with `UnknownType` for an unregistered
    name rather than defaulting to a guessed size. -/
theorem c7_unknown_type (cat : List ScalarType) (n : String)
    (tgt : List TargetType) (l : LayoutDescriptor) :
    (lookup cat n = .error (.unknownType n) ↔ ¬ registered cat n) ∧
      ((∃ m ∈ scalarNames l, ¬ registered cat m) →
        ∃ m, ¬ registered cat m ∧ emit cat tgt l = .error (.unknownType m)) := by
  constructor
  · cases hf : cat.find? (fun t => t.name == n) with
    | none =>
      have hall := List.find?_eq_none.mp hf
      simp only [lookup, hf, registered]
      constructor
      · intro _ ⟨t, ht, hn⟩
        exact hall t ht (by simp [hn])
      · intro _
        trivial
    | some t =>
      have hp := List.find?_some hf
      have hmem : t ∈ cat := List.mem_of_find?_eq_some hf
      simp only [lookup, hf, registered]
      constructor
      · intro h
        cases h
      · intro hr
        exact absurd ⟨t, hmem, by simpa using hp⟩ hr
  · intro ⟨m, hm, hr⟩
    have hpm : (!(cat.any (fun t => t.name == m))) = true := by
      simp only [Bool.not_eq_true', List.any_eq_false]
      intro t ht
      simp only [beq_iff_eq]
      intro he
      exact hr ⟨t, ht, he⟩
    cases hu : firstUnknown cat l with
    | none =>
      exact absurd hpm (List.find?_eq_none.mp hu m hm)
    | some u =>
      refine ⟨u, ?_, ?_⟩
      · have hpu := List.find?_some hu
        simp only [Bool.not_eq_true', List.any_eq_false, beq_iff_eq] at hpu
        intro ⟨t, ht, he⟩
        exact hpu t ht he
      · simp [emit, hu]

/-- A layout whose single field names the unregistered foreign type
    `weird_t`. -/
def badLayout : LayoutDescriptor :=
  ⟨"bad", [⟨"f0", .scalar ⟨"weird_t", 4, 4⟩, 1⟩]⟩

/-- C7 (witness): `weird_t` is not in the standard catalog, `lookup` on it
    fails with `UnknownType`, and emitting `badLayout` fails with
    `UnknownType` for an unregistered name. -/
theorem c7_unknown_type_witness :
    (lookup stdCatalog ("weird_t") = .error (.unknownType ("weird_t")) ∧
      ¬ registered stdCatalog ("weird_t")) ∧
      (∃ m, ¬ registered stdCatalog m ∧
        emit stdCatalog stdTargets badLayout = .error (.unknownType m)) :=
  ⟨⟨(c7_unknown_type stdCatalog ("weird_t") stdTargets badLayout).1.mpr (by decide),
    by decide⟩,
   (c7_unknown_type stdCatalog ("weird_t") stdTargets badLayout).2
     ⟨"weird_t", by decide, by decide⟩⟩

/-- Successfully resolved nested members keep their declared names in
    order. -/
theorem resolveAll_names (cat : List ScalarType) :
    ∀ members sfs, resolveAll cat members = .ok sfs →
      sfs.map SField.name = members.map (fun x => x.1) := by
  intro members
  induction members with
  | nil =>
    intro sfs h
    cases h
    rfl
  | cons x rest ih =>
    intro sfs h
    revert h
    obtain ⟨nm, ty, c⟩ := x
    unfold resolveAll
    split
    · intro h
      cases h
    · rename_i t ht
      split
      · intro h
        cases h
      · rename_i sfs0 hsfs
        intro h
        cases h
        simp only [List.map, List.cons.injEq]
        exact ⟨trivial, ih sfs0 hsfs⟩

/-- Once a nested source field has an effective name — its own derivable
    type name or a caller-supplied rename — `buildField` reduces to
    resolving the members under that name. -/
theorem buildField_nested_eq (cat : List ScalarType)
    (renames : List (String × String)) (fn : String) (tn : Option String)
    (members : List (String × String × Nat)) (c : Nat) (nm : String)
    (he : effectiveName renames fn tn = some nm) :
    buildField cat renames (.nested fn tn members c) =
      match resolveAll cat members with
      | .error e => .error e
      | .ok sfs => .ok ⟨fn, .sub ⟨nm, sfs⟩, c⟩ := by
  simp only [buildField]
  rw [he]

/-- C8: `buildLayout` fails with `UnsupportedConstruct` whenever the source
    declares a nested structure with no derivable name and no
    caller-supplied rename; and whenever a nested structure does have an
    effective name — its own derivable type name or a caller-supplied
    rename — `buildField` records the nested members as a sub-layout under
    that name, referenced by one field of the outer layout, keeping the
    field name, the array length and the member names. -/
theorem c8_build_layout (cat : List ScalarType)
    (renames : List (String × String)) (d : SourceDecl) :
    ((∃ f ∈ d.fields, isUnnamed renames f = true) →
      ∃ fn, buildLayout cat renames d = .error (.unsupportedConstruct fn)) ∧
      (∀ fn tn nm members c fd,
        effectiveName renames fn tn = some nm →
        buildField cat renames (.nested fn tn members c) = .ok fd →
          fd.name = fn ∧ fd.count = c ∧
            ∃ sfs, fd.ftype = .sub ⟨nm, sfs⟩ ∧
              sfs.map SField.name = members.map (fun x => x.1)) := by
  constructor
  · intro ⟨f, hf, hu⟩
    cases hfind : d.fields.find? (isUnnamed renames) with
    | none =>
      exact absurd hu (List.find?_eq_none.mp hfind f hf)
    | some g =>
      exact ⟨srcFieldName g, by simp [buildLayout, hfind]⟩
  · intro fn tn nm members c fd he h
    rw [buildField_nested_eq cat renames fn tn members c nm he] at h
    revert h
    split
    · intro h
      cases h
    · rename_i sfs hsfs
      intro h
      cases h
      exact ⟨rfl, rfl, sfs, rfl, resolveAll_names cat members sfs hsfs⟩

/-- The timer members of `mntinfo_kstat`, as source triples. -/
def timerSrc : List (String × String × Nat) :=
  [("srtt", "uint32_t", 1), ("deviate", "uint32_t", 1), ("rtxcur", "uint32_t", 1)]

/-- The original `mntinfo_kstat` fragment with the timer struct still
    anonymous: a scalar field followed by an unnamed nested structure. -/
def anonDecl : SourceDecl :=
  ⟨"mntinfo_kstat",
   [.scalar "mik_vers" "uint32_t" 1,
    .nested "mik_timers" none timerSrc (NFS_CALLTYPES + 1)]⟩

/-- The FieldDescriptor that `buildField` produces for the timers once the
    name `mnti_timer` is supplied. -/
def timerFd : FieldDescriptor :=
  ⟨"mik_timers", .sub mntiTimer, NFS_CALLTYPES + 1⟩

/-- The caller-supplied rename the repository's fix corresponds to: give the
    anonymous timer struct embedded at field `mik_timers` the name
    `mnti_timer`. -/
def timerRename : List (String × String) := [("mik_timers", "mnti_timer")]

/-- C8 (witness): with no rename supplied, building the declaration with the
    anonymous nested timer struct fails with `UnsupportedConstruct`; with
    the caller-supplied rename `mnti_timer` for that same anonymous nested
    field, its members become the named sub-layout referenced by the
    `mik_timers` field. -/
theorem c8_build_layout_witness :
    (∃ fn, buildLayout stdCatalog [] anonDecl = .error (.unsupportedConstruct fn)) ∧
      (timerFd.name = "mik_timers" ∧ timerFd.count = NFS_CALLTYPES + 1 ∧
        ∃ sfs, timerFd.ftype = .sub ⟨"mnti_timer", sfs⟩ ∧
          sfs.map SField.name = timerSrc.map (fun x => x.1)) :=
  ⟨(c8_build_layout stdCatalog [] anonDecl).1
     ⟨.nested "mik_timers" none timerSrc (NFS_CALLTYPES + 1), by decide, by decide⟩,
   (c8_build_layout stdCatalog timerRename anonDecl).2 "mik_timers" none "mnti_timer"
     timerSrc (NFS_CALLTYPES + 1) timerFd rfl rfl⟩

/-- C9: every operation of the component is deterministic — equal inputs
    give equal outputs for catalog lookup, layout construction, emission and
    validation (all four are pure functions of their arguments; descriptors
    and the catalog are immutable values that no operation modifies). -/
theorem c9_deterministic (ca cb : List ScalarType) (na nb : String)
    (ta tb : List TargetType) (la lb : LayoutDescriptor)
    (ra rb : List (String × String)) (da db : SourceDecl) (sa sb : Nat)
    (oa ob : Option (List Nat)) (h1 : ca = cb) (h2 : na = nb) (h3 : ta = tb)
    (h4 : la = lb) (h5 : ra = rb) (h6 : da = db) (h7 : sa = sb) (h8 : oa = ob) :
    lookup ca na = lookup cb nb ∧
      buildLayout ca ra da = buildLayout cb rb db ∧
      emit ca ta la = emit cb tb lb ∧
      validate la sa oa = validate lb sb ob := by
  subst h1 h2 h3 h4 h5 h6 h7 h8
  exact ⟨rfl, rfl, rfl, rfl⟩

/-- C9 (witness): determinism instantiated at the worked example's concrete
    inputs. -/
theorem c9_deterministic_witness :
    lookup stdCatalog ("int") = lookup stdCatalog ("int") ∧
      buildLayout stdCatalog [] anonDecl = buildLayout stdCatalog [] anonDecl ∧
      emit stdCatalog stdTargets mntinfoLayout = emit stdCatalog stdTargets mntinfoLayout ∧
      validate mntinfoLayout 492 none = validate mntinfoLayout 492 none :=
  c9_deterministic stdCatalog stdCatalog ("int") ("int") stdTargets stdTargets
    mntinfoLayout mntinfoLayout [] [] anonDecl anonDecl 492 492 none none
    rfl rfl rfl rfl rfl rfl rfl rfl

/-- C10: in `struct mntinfo_kstat_cgo` the field `mik_timers` is an array of
    `NFS_CALLTYPES + 1 = 4` elements of `struct mnti_timer`, whose members
    are the three `uint32_t` fields `srtt`, `deviate`, `rtxcur`; one element
    occupies 12 bytes and the array 48 bytes. -/
theorem c10_timers :
    NFS_CALLTYPES + 1 = 4 ∧
      mntinfoLayout.fields.find? (fun f => f.name == "mik_timers") =
        some ⟨"mik_timers", .sub mntiTimer, NFS_CALLTYPES + 1⟩ ∧
      mntiTimer.fields.map SField.name = ["srtt", "deviate", "rtxcur"] ∧
      (∀ sf ∈ mntiTimer.fields, sf.ty = uint32T ∧ sf.count = 1) ∧
      subLayoutSize mntiTimer = 12 ∧
      fieldBytes ⟨"mik_timers", .sub mntiTimer, NFS_CALLTYPES + 1⟩ = 48 := by
  refine ⟨rfl, rfl, rfl, ?_, rfl, rfl⟩
  decide
